import Mathlib

/-!
Verification of the ocapistaine mockup/evaluation harness
(`app/mockup/levenshtein.py`, `app/mockup/generator.py`, `app/mockup/storage.py`,
`app/mockup/dataset.py`, `app/processors/mockup_processor.py`).

Conventions of the embedding:
* Python strings are `String`/`List Char`; Python floats are modelled as `Rat`
  (the algorithms only use them through arithmetic and comparisons);
* Python `dict.get(key, default)` reads of possibly-missing keys are modelled as
  `Option` fields consumed with `Option.getD`;
* the global `random` module is modelled by threading explicit oracle values
  (one `Nat` per draw, `choice xs` picks `xs[draw % len xs]`), so every theorem
  quantifies over all possible draws;
* `apply_distance` appears inside `derive_contribution`; because its `while`
  loop need not terminate (see the `C8` development below) it is threaded as an
  oracle argument there, while the loop body itself is embedded step by step.
-/

set_option autoImplicit false

/- Batteries marks the `Rat` arithmetic irreducible, which blocks `decide` on
closed rational facts; restore the default transparency so that concrete
witnesses evaluate. -/
set_option allowUnsafeReducibility true
attribute [semireducible] Rat.add Rat.mul Rat.sub Rat.inv Rat.div

namespace Ocapistaine

/-! ### `levenshtein_distance` (app/mockup/levenshtein.py, lines 14-45)

The source computes the distance with a rolling-row dynamic programme:
`previous_row = range(len(s2) + 1)`, then for each character `c1` of `s1` a new
row is built cell by cell with
`min(previous_row[j+1] + 1, current_row[j] + 1, previous_row[j] + (c1 != c2))`,
and the answer is the last cell of the final row.  Strings are swapped first so
that `s1` is the longer one, and `len(s2) == 0` returns `len(s1)` directly. -/

/-- One inner `for j, c2 in enumerate(s2)` loop of the source: `prev` is the
suffix of `previous_row` starting at index `j` (so its first two entries are
`previous_row[j]` and `previous_row[j+1]`), and `d` is the cell
`current_row[j]` appended last.  Returns the cells `current_row[j+1 ..]`. -/
def currentRowAux (c1 : Char) : List Char → List Nat → Nat → List Nat
  | [], _, _ => []
  | _ :: _, [], _ => []
  | _ :: _, [_], _ => []
  | c2 :: rest, p0 :: p1 :: ps, d =>
    let insertions := p1 + 1
    let deletions := d + 1
    let substitutions := p0 + (if c1 ≠ c2 then 1 else 0)
    let m := min insertions (min deletions substitutions)
    m :: currentRowAux c1 rest (p1 :: ps) m

/-- The outer `for i, c1 in enumerate(s1)` loop: consumes the remaining
characters of `s1`, carrying `previous_row` and the 0-based counter `i`. -/
def levLoop (s2 : List Char) : List Char → List Nat → Nat → List Nat
  | [], prev, _ => prev
  | c1 :: rest, prev, i =>
    levLoop s2 rest ((i + 1) :: currentRowAux c1 s2 prev (i + 1)) (i + 1)

/-- Body of `levenshtein_distance` after the swap guard: short-circuit on an
empty `s2`, otherwise run the row dynamic programme and take the last entry of
the final row (`previous_row[-1]`). -/
def levMain (s1 s2 : List Char) : Nat :=
  if s2.length = 0 then
    s1.length
  else
    (levLoop s2 s1 (List.range (s2.length + 1)) 0).getLastD 0

/-- `levenshtein_distance(s1, s2)` from the source.  The source's only
recursive call is the argument swap `return levenshtein_distance(s2, s1)` taken
when `len(s1) < len(s2)`; the swapped call then runs the main body, so the
recursion (of depth one) is written out here, and
`levenshtein_distance_swap_eq` below recovers the source's equation. -/
def levenshtein_distance (s1 s2 : List Char) : Nat :=
  if s1.length < s2.length then
    levMain s2 s1
  else
    levMain s1 s2

/-- The source's swap equation: when `s1` is the shorter string the function
returns `levenshtein_distance(s2, s1)`. -/
theorem levenshtein_distance_swap_eq (s1 s2 : List Char)
    (h : s1.length < s2.length) :
    levenshtein_distance s1 s2 = levenshtein_distance s2 s1 := by
  unfold levenshtein_distance
  rw [if_pos h, if_neg (Nat.not_lt.mpr (Nat.le_of_lt h))]

/-! A reference definition of the Levenshtein distance by structural recursion,
used to prove properties of the row dynamic programme above. -/

/-- Structural Levenshtein recursion (peeling first characters). -/
def levRec : List Char → List Char → Nat
  | [], ys => ys.length
  | x :: xs, [] => (x :: xs).length
  | x :: xs, y :: ys =>
    min (levRec xs (y :: ys) + 1)
      (min (levRec (x :: xs) ys + 1) (levRec xs ys + (if x ≠ y then 1 else 0)))
termination_by xs ys => xs.length + ys.length
decreasing_by
  all_goals (simp only [List.length_cons]; omega)

theorem levRec_nil_right (u : List Char) : levRec u [] = u.length := by
  cases u <;> simp [levRec]

theorem levRec_nil_left (v : List Char) : levRec [] v = v.length := by
  simp [levRec]

theorem levRec_symm (u v : List Char) : levRec u v = levRec v u := by
  induction u generalizing v with
  | nil => rw [levRec_nil_left, levRec_nil_right]
  | cons x xs ih =>
    induction v with
    | nil => rw [levRec_nil_left, levRec_nil_right]
    | cons y ys ihv =>
      rw [levRec, levRec, ih (y :: ys), ih ys, ihv]
      have hc : (if x ≠ y then 1 else 0) = (if y ≠ x then 1 else 0) := by
        by_cases h : x = y
        · simp [h]
        · have h2 : y ≠ x := fun hyx => h hyx.symm
          simp [h, h2]
      rw [hc]
      omega

theorem levRec_self (u : List Char) : levRec u u = 0 := by
  induction u with
  | nil => simp [levRec]
  | cons x xs ih => rw [levRec]; simp [ih]

/-- Value of the dynamic-programming cell `(i, k)`: the Levenshtein distance
between the length-`i` prefix of `a` and the length-`k` prefix of `b`,
expressed through `levRec` on the reversed prefixes. -/
def rowVal (a b : List Char) (i k : Nat) : Nat :=
  levRec ((a.take i).reverse) ((b.take k).reverse)

theorem reverse_take_succ (l : List Char) (i : Nat) (h : i < l.length) :
    (l.take (i + 1)).reverse = l.get ⟨i, h⟩ :: (l.take i).reverse := by
  rw [List.take_succ, List.getElem?_eq_getElem h]
  simp

theorem rowVal_zero_right (a b : List Char) (i : Nat) (hi : i ≤ a.length) :
    rowVal a b i 0 = i := by
  simp [rowVal, levRec_nil_right, Nat.min_eq_left hi]

theorem rowVal_zero_left (a b : List Char) (k : Nat) (hk : k ≤ b.length) :
    rowVal a b 0 k = k := by
  simp [rowVal, levRec_nil_left, Nat.min_eq_left hk]

/-- The defining recurrence of the dynamic programme, read off `levRec`:
cell `(i+1, j+1)` is the minimum of the insertion, deletion and substitution
candidates built from cells `(i, j+1)`, `(i+1, j)` and `(i, j)`. -/
theorem rowVal_succ_succ (a b : List Char) (i j : Nat)
    (hi : i < a.length) (hj : j < b.length) :
    rowVal a b (i + 1) (j + 1) =
      min (rowVal a b i (j + 1) + 1)
        (min (rowVal a b (i + 1) j + 1)
          (rowVal a b i j + (if a.get ⟨i, hi⟩ ≠ b.get ⟨j, hj⟩ then 1 else 0))) := by
  unfold rowVal
  rw [reverse_take_succ a i hi, reverse_take_succ b j hj, levRec]

/-- Correctness of the inner `for j, c2 in enumerate(s2)` loop: starting from
index `j` with the matching suffix of `previous_row` and the current cell
`(i+1, j)`, it produces exactly the cells `(i+1, j+1) .. (i+1, len b)`. -/
theorem currentRowAux_eq (a b : List Char) (i : Nat) (hi : i < a.length) :
    ∀ n j, j + n = b.length →
    currentRowAux (a.get ⟨i, hi⟩) (b.drop j)
        ((List.range' j (b.length + 1 - j)).map (rowVal a b i))
        (rowVal a b (i + 1) j)
    = (List.range' (j + 1) (b.length - j)).map (rowVal a b (i + 1)) := by
  intro n
  induction n with
  | zero =>
    intro j hj
    have hj' : j = b.length := by omega
    subst hj'
    rw [List.drop_length]
    have h0 : b.length - b.length = 0 := by omega
    rw [h0]
    simp [currentRowAux]
  | succ n ih =>
    intro j hj
    have hjb : j < b.length := by omega
    have hdrop : b.drop j = b.get ⟨j, hjb⟩ :: b.drop (j + 1) := by
      rw [List.drop_eq_getElem_cons hjb]; rfl
    have hlen1 : b.length + 1 - j = n + 2 := by omega
    have hlen2 : b.length - j = n + 1 := by omega
    have hlen3 : b.length + 1 - (j + 1) = n + 1 := by omega
    rw [hdrop, hlen1, hlen2, List.range'_succ, List.range'_succ, List.map_cons,
      List.map_cons, currentRowAux]
    have hcell :
        min (rowVal a b i (j + 1) + 1)
          (min (rowVal a b (i + 1) j + 1)
            (rowVal a b i j +
              (if a.get ⟨i, hi⟩ ≠ b.get ⟨j, hjb⟩ then 1 else 0)))
        = rowVal a b (i + 1) (j + 1) :=
      (rowVal_succ_succ a b i j hi hjb).symm
    rw [hcell]
    have htail := ih (j + 1) (by omega)
    rw [hlen3, List.range'_succ, List.map_cons] at htail
    have hlen4 : b.length - (j + 1) = n := by omega
    rw [htail, hlen4, List.map_cons]

/-- Correctness of the outer `for i, c1 in enumerate(s1)` loop: starting at
counter `i` with row `i`, it returns the final row `len a`. -/
theorem levLoop_eq (a b : List Char) :
    ∀ n i, i + n = a.length →
    levLoop b (a.drop i) ((List.range' 0 (b.length + 1)).map (rowVal a b i)) i
    = (List.range' 0 (b.length + 1)).map (rowVal a b a.length) := by
  intro n
  induction n with
  | zero =>
    intro i hi
    have hi' : i = a.length := by omega
    subst hi'
    rw [List.drop_length, levLoop]
  | succ n ih =>
    intro i hi
    have hia : i < a.length := by omega
    have hdrop : a.drop i = a.get ⟨i, hia⟩ :: a.drop (i + 1) := by
      rw [List.drop_eq_getElem_cons hia]; rfl
    rw [hdrop, levLoop]
    have hprev :
        (i + 1) :: currentRowAux (a.get ⟨i, hia⟩) b
            ((List.range' 0 (b.length + 1)).map (rowVal a b i)) (i + 1)
        = (List.range' 0 (b.length + 1)).map (rowVal a b (i + 1)) := by
      have hd : (i + 1 : Nat) = rowVal a b (i + 1) 0 :=
        (rowVal_zero_right a b (i + 1) (by omega)).symm
      have hrow := currentRowAux_eq a b i hia b.length 0 (by omega)
      rw [List.drop_zero] at hrow
      have hb0 : b.length + 1 - 0 = b.length + 1 := by omega
      have hzero : b.length - 0 = b.length := by omega
      rw [hb0, hzero, ← hd] at hrow
      rw [hrow, List.range'_succ, List.map_cons,
        rowVal_zero_right a b (i + 1) (by omega)]
    rw [hprev]
    exact ih (i + 1) (by omega)

/-- The row dynamic programme of the source computes the structural Levenshtein
distance of the reversed strings. -/
theorem levMain_correct (s1 s2 : List Char) :
    levMain s1 s2 = levRec s1.reverse s2.reverse := by
  rw [levMain]
  by_cases h2 : s2.length = 0
  · rw [if_pos h2]
    have : s2 = [] := List.length_eq_zero.mp h2
    subst this
    simp [levRec_nil_right]
  · rw [if_neg h2]
    have hinit :
        List.range (s2.length + 1)
        = (List.range' 0 (s2.length + 1)).map (rowVal s1 s2 0) := by
      have hid : (List.range' 0 (s2.length + 1)).map (rowVal s1 s2 0)
          = (List.range' 0 (s2.length + 1)).map id := by
        refine List.map_congr_left ?_
        intro k hk
        have hk' := List.mem_range'_1.mp hk
        simp only [id]
        exact rowVal_zero_left s1 s2 k (by omega)
      rw [List.range_eq_range', hid, List.map_id]
    rw [hinit]
    have hloop := levLoop_eq s1 s2 s1.length 0 (by omega)
    rw [List.drop_zero] at hloop
    rw [hloop]
    rw [List.range'_concat, List.map_append]
    simp only [List.map_cons, List.map_nil, List.getLastD_concat]
    have hidx : (0 + 1 * s2.length : Nat) = s2.length := by omega
    rw [hidx]
    unfold rowVal
    rw [List.take_length, List.take_length]

/-- The dynamic programme computes the structural Levenshtein distance of the
reversed inputs, for all inputs (including the swap branch). -/
theorem levenshtein_eq_levRec (s1 s2 : List Char) :
    levenshtein_distance s1 s2 = levRec s1.reverse s2.reverse := by
  rw [levenshtein_distance]
  by_cases h : s1.length < s2.length
  · rw [if_pos h, levMain_correct]
    exact levRec_symm _ _
  · rw [if_neg h, levMain_correct]

/-! ### `levenshtein_ratio` (levenshtein.py, lines 48-63) -/

/-- `levenshtein_ratio(s1, s2)`: `1 - distance / max(len(s1), len(s2))`, and
`1.0` when both strings are empty. -/
def levenshtein_ratio (s1 s2 : List Char) : Rat :=
  let distance := levenshtein_distance s1 s2
  let max_len := max s1.length s2.length
  if max_len = 0 then 1
  else 1 - (distance : Rat) / (max_len : Rat)

/-! ### Violation patterns and `inject_violation` (levenshtein.py, lines
148-247).  The `VIOLATION_PATTERNS` dict is embedded as an association list in
its source order; apostrophes inside the French phrases are written `\x27`. -/

/-- The fixed violation catalog (four categories, in source order). -/
def VIOLATION_PATTERNS : List (String × List String) :=
  [("personal_attack",
    ["cet incompétent de maire", "ces idiots du conseil",
     "le maire est un menteur", "ils sont tous corrompus",
     "bande d\x27incapables"]),
   ("off_topic",
    ["d\x27ailleurs, parlons de la politique nationale",
     "comme le président Macron", "les immigrés sont responsables",
     "le gouvernement devrait"]),
   ("non_constructive",
    ["c\x27est nul", "ça ne marchera jamais", "personne ne fait rien",
     "tout est pourri", "ça sert à rien"]),
   ("aggressive",
    ["!!!", "RÉVEILLEZ-VOUS", "C\x27EST SCANDALEUX", "HONTE À VOUS",
     "INADMISSIBLE"])]

/-- Characters of the regex class `[.!?]` used by the sentence splitter. -/
def isSentenceEnd (c : Char) : Bool :=
  c == '.' || c == '!' || c == '?'

/-- Fuel-indexed scanner for `re.split(r'(?<=[.!?])\s+', text)`: cut at every
maximal whitespace run whose first character is directly preceded by `.`, `!`
or `?`.  `acc` holds the current piece reversed; fuel `text.length` suffices
because every recursive call consumes at least one character. -/
def splitSentencesAux : Nat → List Char → List Char → List (List Char)
  | 0, acc, _ => [acc.reverse]
  | _ + 1, acc, [] => [acc.reverse]
  | fuel + 1, acc, c :: rest =>
    if c.isWhitespace && (match acc with | p :: _ => isSentenceEnd p | [] => false) then
      acc.reverse :: splitSentencesAux fuel [] (rest.dropWhile Char.isWhitespace)
    else
      splitSentencesAux fuel (c :: acc) rest

/-- `re.split(r'(?<=[.!?])\s+', text)` as a list of sentence strings. -/
def splitSentences (text : String) : List String :=
  (splitSentencesAux text.data.length [] text.data).map String.mk

/-- `inject_violation(text, violation_type, intensity, seed)` (lines 202-247).
The one `random.choice(patterns)` draw is modelled by the oracle index `pick`
(`patterns[pick % len(patterns)]`); the seeding itself has no other effect.
Returns `(modified_text, violation_description)`; an unknown category returns
the text unchanged with the sentinel description `"unknown_violation"`. -/
def inject_violation (text : String) (violation_type : String)
    (intensity : Rat) (pick : Nat) : String × String :=
  match VIOLATION_PATTERNS.lookup violation_type with
  | none => (text, "unknown_violation")
  | some patterns =>
    let pattern := patterns.getD (pick % patterns.length) ""
    let sentences := splitSentences text
    if sentences = [] then
      -- dead in practice: `re.split` never returns an empty list
      (pattern ++ ". " ++ text, violation_type)
    else if intensity < 3/10 then
      -- low intensity: add at end
      (text ++ " " ++ pattern ++ ".", violation_type)
    else if intensity < 7/10 then
      -- medium intensity: insert in middle
      let mid := sentences.length / 2
      (String.intercalate " " (sentences.take mid ++ pattern :: sentences.drop mid),
        violation_type)
    else
      -- high intensity: replace beginning
      (String.intercalate " "
        ((pattern ++ ". " ++ sentences.headD "") :: sentences.tail),
        violation_type)

/-! ### `MockContribution` and `ContributionGenerator` (app/mockup/generator.py)

The `random` module state consumed by `apply_distance` and `inject_violation`
and the md5 content hash of `generate_id` are threaded as oracles (see the
header comment).  `ContributionGenerator` only accumulates the contributions it
returns into `self.contributions`; the returned values are embedded, the
accumulator is not. -/

/-- `MockContribution` dataclass (generator.py, lines 37-105).  `metadata` is
an opaque optional dict, modelled as an association list. -/
structure MockContribution where
  id : String
  category : Option String
  constat_factuel : String
  idees_ameliorations : String
  source : String
  parent_id : Option String
  distance_from_parent : Option Nat
  similarity_to_parent : Option Rat
  expected_valid : Option Bool
  violations_injected : Option (List String)
  metadata : Option (List (String × String))
deriving Repr, DecidableEq, Inhabited

/-- `MockContribution.title`: the `constat_factuel` (or, when it is empty, the
`idees_ameliorations`), truncated to 80 characters with an ellipsis. -/
def MockContribution.title (c : MockContribution) : String :=
  let text := if c.constat_factuel ≠ "" then c.constat_factuel
    else c.idees_ameliorations
  if text.length > 80 then (text.take 77) ++ "..." else text

/-- `MockContribution.body`: markdown combination of the two text fields. -/
def MockContribution.body (c : MockContribution) : String :=
  let parts :=
    (if c.constat_factuel ≠ ""
      then ["**Constat factuel:**\n" ++ c.constat_factuel] else [])
    ++ (if c.idees_ameliorations ≠ ""
      then ["**Vos idées d\x27améliorations:**\n" ++ c.idees_ameliorations]
      else [])
  String.intercalate "\n\n" parts

/-- `MockContribution.full_text`: `f"{constat_factuel} {idees_ameliorations}"`. -/
def MockContribution.full_text (c : MockContribution) : String :=
  c.constat_factuel ++ " " ++ c.idees_ameliorations

/-- `MockContribution.generate_id`: md5 hash (threaded as the oracle `md5`) of
`f"{constat_factuel}:{idees_ameliorations}:{category}"`; `None` prints as
`"None"` in the f-string. -/
def MockContribution.generate_id (md5 : String → String)
    (c : MockContribution) : String :=
  md5 (c.constat_factuel ++ ":" ++ c.idees_ameliorations ++ ":"
    ++ (match c.category with | none => "None" | some s => s))

/-- Python `round(x, 3)` used for `similarity_to_parent` (modelled as
round-half-up on the exact rational; the source rounds the nearest binary
float, indistinguishable for the values the claims touch). -/
def roundTo3 (q : Rat) : Rat := (round (q * 1000) : Rat) / 1000

/-- `ContributionGenerator.derive_contribution` (generator.py, lines 156-234).
`ad1`/`ad2` are oracles for the two `apply_distance` calls (the mutated text;
the accompanying distance is discarded by the source), `pick` the
`random.choice` draw used if `inject_violation` runs, `md5` the hash oracle.
A `violation` is injected into the mutated `idees` when that string is
non-empty, else into the mutated `constat`; an `inject_violation_type` that is
`None` or `""` is falsy in Python, so nothing is injected then. -/
def derive_contribution (ad1 ad2 : String → Nat → String) (pick : Nat)
    (md5 : String → String) (parent : MockContribution)
    (target_distance : Nat) (inject_violation_type : Option String)
    (violation_intensity : Rat) : MockContribution :=
  let mutated_constat := ad1 parent.constat_factuel (target_distance / 2)
  let mutated_idees := ad2 parent.idees_ameliorations (target_distance / 2)
  let step :=
    if (inject_violation_type.getD "") ≠ "" then
      if mutated_idees ≠ "" then
        let r := inject_violation mutated_idees (inject_violation_type.getD "")
          violation_intensity pick
        (mutated_constat, r.1, [r.2])
      else
        let r := inject_violation mutated_constat (inject_violation_type.getD "")
          violation_intensity pick
        (r.1, mutated_idees, [r.2])
    else
      (mutated_constat, mutated_idees, ([] : List String))
  let violations_injected := step.2.2
  let parent_text := parent.full_text
  let derived_text := step.1 ++ " " ++ step.2.1
  let text_distance := levenshtein_distance parent_text.data derived_text.data
  let similarity := levenshtein_ratio parent_text.data derived_text.data
  let expected_valid :=
    if violations_injected ≠ [] then some false else parent.expected_valid
  let contrib : MockContribution :=
    { id := ""
      category := parent.category
      constat_factuel := step.1
      idees_ameliorations := step.2.1
      source := "derived"
      parent_id := some parent.id
      distance_from_parent := some text_distance
      similarity_to_parent := some (roundTo3 similarity)
      expected_valid := expected_valid
      violations_injected :=
        if violations_injected ≠ [] then some violations_injected else none
      metadata := none }
  { contrib with id := contrib.generate_id md5 }

/-- `ContributionGenerator.generate_variation_series` (generator.py, lines
236-278): derive `num_variations` contributions at linearly growing target
distances; with `progressive_violations` and `progress > 0.4`, pick the
violation category by mapping `(progress - 0.4) / 0.6` onto the catalog.
The oracles are indexed by the loop counter `i`. -/
def generate_variation_series (ad1 ad2 : Nat → String → Nat → String)
    (pick : Nat → Nat) (md5 : String → String) (parent : MockContribution)
    (num_variations : Nat) ( max_distance_ratio : Rat)
    (progressive_violations : Bool) : List MockContribution :=
  let max_distance := (⌊(parent.body.length : Rat) * max_distance_ratio⌋).toNat
  let violation_types := VIOLATION_PATTERNS.map (fun p => p.1)
  (List.range num_variations).map (fun (i : Nat) =>
    let progress : Rat := (((i + 1 : Nat) : Rat)) / (num_variations : Rat)
    let target_distance := (⌊(max_distance : Rat) * progress⌋).toNat
    let inject_violation_type :=
      if progressive_violations ∧ progress > 4/10 then
        let v_idx :=
          (⌊(progress - 4/10) / (6/10) * (violation_types.length : Rat)⌋).toNat
        some (violation_types.getD (min v_idx (violation_types.length - 1)) "")
      else none
    derive_contribution (ad1 i) (ad2 i) (pick i) md5 parent target_distance
      inject_violation_type progress)

/-! ### `ValidationRecord` and the Opik export (app/mockup/storage.py) -/

/-- `ValidationRecord` dataclass (storage.py, lines 69-172): the classifier's
verdict (`is_valid`, `violations`, ...) together with the mockup ground truth
(`expected_valid`, `violations_injected`) and execution metadata. -/
structure ValidationRecord where
  id : String
  date : String
  title : String
  body : String
  category : Option String
  constat_factuel : String
  idees_ameliorations : String
  is_valid : Bool
  violations : List String
  encouraged_aspects : List String
  confidence : Rat
  reasoning : String
  suggested_category : Option String
  category_confidence : Rat
  category_reasoning : String
  source : String
  expected_valid : Option Bool
  parent_id : Option String
  similarity_to_parent : Option Rat
  distance_from_parent : Option Nat
  violations_injected : List String
  provider : String
  model : String
  execution_time_ms : Option Nat
  trace_id : Option String
  timestamp : String
deriving Repr, DecidableEq, Inhabited

/-- The `input` dict of an Opik dataset item. -/
structure OpikInput where
  title : String
  body : String
  category : Option String
  constat_factuel : String
  idees_ameliorations : String
deriving Repr, DecidableEq

/-- The `expected_output` dict of an Opik dataset item. -/
structure OpikExpectedOutput where
  is_valid : Bool
  violations : List String
  encouraged_aspects : List String
  confidence : Rat
  reasoning : String
  category : Option String
deriving Repr, DecidableEq

/-- The `metadata` dict of an Opik dataset item. -/
structure OpikMetadata where
  id : String
  date : String
  source : String
  expected_valid : Option Bool
  parent_id : Option String
  similarity_to_parent : Option Rat
  violations_injected : List String
  provider : String
  model : String
  trace_id : Option String
deriving Repr, DecidableEq

/-- An Opik dataset item: the triple produced by `to_opik_item`. -/
structure OpikItem where
  input : OpikInput
  expected_output : OpikExpectedOutput
  metadata : OpikMetadata
deriving Repr, DecidableEq

/-- `ValidationRecord.to_opik_item` (storage.py, lines 127-166). -/
def ValidationRecord.to_opik_item (r : ValidationRecord) : OpikItem :=
  { input :=
      { title := r.title
        body := r.body
        category := r.category
        constat_factuel := r.constat_factuel
        idees_ameliorations := r.idees_ameliorations }
    expected_output :=
      { is_valid := r.is_valid
        violations := r.violations
        encouraged_aspects := r.encouraged_aspects
        confidence := r.confidence
        reasoning := r.reasoning
        -- `self.suggested_category or self.category`: Python `or` falls
        -- through on `None` and on the empty string
        category :=
          match r.suggested_category with
          | some s => if s ≠ "" then some s else r.category
          | none => r.category }
    metadata :=
      { id := r.id
        date := r.date
        source := r.source
        expected_valid := r.expected_valid
        parent_id := r.parent_id
        similarity_to_parent := r.similarity_to_parent
        violations_injected := r.violations_injected
        provider := r.provider
        model := r.model
        trace_id := r.trace_id } }

/-- `ValidationRecord.matches_expected` (storage.py, lines 168-172): `None`
when there is no ground truth, else `is_valid == expected_valid`. -/
def ValidationRecord.matches_expected (r : ValidationRecord) : Option Bool :=
  match r.expected_valid with
  | none => none
  | some e => some (r.is_valid == e)

/-! ### Metrics and experiment scoring (app/processors/mockup_processor.py)

The scorer consumes plain dicts (`output`, `expected_output`, `metadata`) read
with `dict.get(key, default)`; possibly-missing keys are `Option` fields read
with `getD`. -/

/-- The classifier `output` dict as read by the metrics. -/
structure ClassifierOutputDict where
  is_valid : Option Bool
  violations : Option (List String)
  confidence : Option Rat
deriving Repr, DecidableEq

/-- The `expected_output` dict as read by the scorer. -/
structure ExpectedOutputDict where
  is_valid : Option Bool
deriving Repr, DecidableEq

/-- The `metadata` dict as read by the metrics (`expected_valid` is carried by
exported items but never read by the scorer). -/
structure MetadataDict where
  violations_injected : Option (List String)
  expected_valid : Option Bool
deriving Repr, DecidableEq

/-- `ViolationDetectionMetric.score` (mockup_processor.py, lines 81-105). -/
def ViolationDetectionMetric.score (output : ClassifierOutputDict)
    (metadata : MetadataDict) : Rat :=
  let violations_injected := metadata.violations_injected.getD []
  if violations_injected = [] then
    -- no violations expected: score based on not finding false positives
    let violations_found := output.violations.getD []
    if violations_found = [] then 1 else 1/2
  else
    let violations_found := output.violations.getD []
    if violations_found = [] ∧ output.is_valid.getD true = false then
      -- marked invalid but no specific violations: partial credit
      1/2
    else if violations_found ≠ [] then 1 else 0

/-- One entry of `eval_results.test_results`. -/
structure TestResult where
  output : ClassifierOutputDict
  expected_output : ExpectedOutputDict
  metadata : MetadataDict
deriving Repr, DecidableEq

/-- The fields of `ExperimentResult` written by
`_calculate_experiment_scores`. -/
structure ExperimentScores where
  charter_accuracy : Option Rat
  violation_detection : Option Rat
  confidence_calibration : Option Rat
  true_positives : Nat
  true_negatives : Nat
  false_positives : Nat
  false_negatives : Nat
  precision : Option Rat
  -- the source field is named `recall`; `recall` is a Lean command keyword
  recall_score : Option Rat
  f1_score : Option Rat
deriving Repr, DecidableEq

/-- `MockupProcessor._calculate_experiment_scores` (mockup_processor.py, lines
781-843).  The source accumulates score lists and confusion counters in one
pass and then aggregates; the single pass is embedded as one map/filter per
accumulator.  `actual_valid` is `output.get("is_valid", True)`, and
`expected_valid` here is `expected_output.get("is_valid", True)` — the scorer
never consults `metadata` except for `violations_injected`. -/
def calculateExperimentScores (test_results : List TestResult) :
    ExperimentScores :=
  let actual := fun (t : TestResult) => t.output.is_valid.getD true
  let expected := fun (t : TestResult) => t.expected_output.is_valid.getD true
  let accuracy_scores : List Rat := test_results.map (fun t =>
    if actual t = expected t then 1 else 0)
  let tp := (test_results.filter (fun t =>
    expected t = false ∧ actual t = false)).length
  let fn := (test_results.filter (fun t =>
    expected t = false ∧ actual t = true)).length
  let tn := (test_results.filter (fun t =>
    expected t = true ∧ actual t = true)).length
  let fp := (test_results.filter (fun t =>
    expected t = true ∧ actual t = false)).length
  let violation_scores : List Rat := test_results.filterMap (fun t =>
    if t.metadata.violations_injected.getD [] ≠ [] then
      some (if t.output.violations.getD [] ≠ [] ∨ actual t = false then 1 else 0)
    else none)
  let calibration_scores : List Rat := test_results.map (fun t =>
    let confidence := t.output.confidence.getD (1/2)
    if actual t = expected t then confidence else 1 - confidence)
  let precision : Option Rat :=
    if tp + fp > 0 then some ((tp : Rat) / ((tp + fp : Nat) : Rat)) else none
  let recall_score : Option Rat :=
    if tp + fn > 0 then some ((tp : Rat) / ((tp + fn : Nat) : Rat)) else none
  { charter_accuracy :=
      if accuracy_scores ≠ [] then
        some (accuracy_scores.sum / (accuracy_scores.length : Rat))
      else none
    violation_detection :=
      if violation_scores ≠ [] then
        some (violation_scores.sum / (violation_scores.length : Rat))
      else none
    confidence_calibration :=
      if calibration_scores ≠ [] then
        some (calibration_scores.sum / (calibration_scores.length : Rat))
      else none
    true_positives := tp
    true_negatives := tn
    false_positives := fp
    false_negatives := fn
    precision := precision
    recall_score := recall_score
    -- `if result.precision and result.recall:` — Python truthiness also
    -- rejects a defined value of `0.0`
    f1_score :=
      match precision, recall_score with
      | some p, some r =>
        if p ≠ 0 ∧ r ≠ 0 then some (2 * (p * r) / (p + r)) else none
      | _, _ => none }

/-- The accuracy computed inside `MockupProcessor.run_workflow`
(mockup_processor.py, lines 381-391): count of records whose
`matches_expected()` is `True`, divided by the number of records with a known
`expected_valid`; left `None` when there are no records or no record has
ground truth. -/
def workflowAccuracy (validation_results : List ValidationRecord) :
    Option Rat :=
  let matches_expected := (validation_results.filter
    (fun r => r.matches_expected == some true)).length
  if validation_results.length > 0 then
    let with_expected := validation_results.filter
      (fun r => r.expected_valid ≠ none)
    if with_expected ≠ [] then
      some ((matches_expected : Rat) / (with_expected.length : Rat))
    else none
  else none

/-! ### `DatasetManager.create_train_val_test_split` (app/mockup/dataset.py,
lines 178-235).  The function fetches the items, computes
`train_end = int(n * train_ratio)` and `val_end = train_end + int(n *
val_ratio)`, and pushes the slices `items[:train_end]`,
`items[train_end:val_end]`, `items[val_end:]` into the three datasets
(returning their sizes); the slicing itself is embedded, generically in the
item type.  `int()` truncation agrees with `Int.floor` on the nonnegative
values arising from ratios in `[0, 1]`. -/

/-- The three slices produced by `create_train_val_test_split`; an empty input
short-circuits to three empty outputs (`{"training": 0, ...}` in the source).
`test_ratio` is accepted and unused, as in the source. -/
def create_train_val_test_split {α : Type} (items : List α)
    ( train_ratio val_ratio test_ratio : Rat) :
    List α × List α × List α :=
  if items.isEmpty then ([], [], [])
  else
    let n := items.length
    let train_end := (⌊(n : Rat) * train_ratio⌋).toNat
    let val_end := train_end + (⌊(n : Rat) * val_ratio⌋).toNat
    (items.take train_end,
      (items.drop train_end).take (val_end - train_end),
      items.drop val_end)

/-! ### The `apply_distance` edit loop (app/mockup/levenshtein.py, lines
66-145).  The loop draws from the global PRNG; one iteration consumes up to
four draws, bundled in a `MutationDraws` record supplied by an oracle stream
(one record per iteration; `random.choice`/`randint` draws are modelled as an
arbitrary `Nat` reduced modulo the size of the sampled range).  The loop
itself need not terminate, so it is embedded as a fuel-indexed iterate of the
loop body together with the loop guard. -/

/-- The PRNG draws one loop iteration may consume. -/
structure MutationDraws where
  mixedChoice : Nat
  pos : Nat
  insertIsLetter : Bool
  charPick : Nat
deriving Repr, DecidableEq

/-- `vowels` character set of `apply_distance`. -/
def vowels : String := "aeiouàâäéèêëïîôùûü"

/-- `consonants` character set of `apply_distance`. -/
def consonants : String := "bcdfghjklmnpqrstvwxyz"

/-- `punctuation` character set of `apply_distance`. -/
def punctuation : String := ".,;:!?-\x27\"()"

/-- The candidate kinds drawn by `random.choice` in `"mixed"` mode. -/
def mutationKinds : List String := ["insert", "delete", "substitute", "swap"]

/-- One iteration of the `while` loop of `apply_distance`: state is
`(chars, mutations_applied)`.  Unicode note: `lower()`/`upper()`/`isupper()`
are modelled by `Char.toLower`/`Char.toUpper`/`Char.isUpper` (ASCII-faithful;
the accented characters of the pools are already lower case). -/
def applyDistanceStep (mutation_type : String) (d : MutationDraws)
    (state : List Char × Nat) : List Char × Nat :=
  let chars := state.1
  let mutation :=
    if mutation_type = "mixed" then
      mutationKinds.getD (d.mixedChoice % mutationKinds.length) ""
    else mutation_type
  -- `pos = random.randint(0, max(0, len(chars) - 1))`
  let pos := d.pos % (max 0 (chars.length - 1) + 1)
  if mutation = "delete" ∧ chars.length > 10 then
    (chars.eraseIdx pos, state.2 + 1)
  else if mutation = "insert" then
    let char :=
      if d.insertIsLetter then  -- `random.random() < 0.7`
        (vowels ++ consonants).data.getD
          (d.charPick % (vowels ++ consonants).length) ' '
      else
        (punctuation ++ "   ").data.getD
          (d.charPick % (punctuation ++ "   ").length) ' '
    (chars.take pos ++ char :: chars.drop pos, state.2 + 1)
  else if mutation = "substitute" then
    let original := chars.getD pos ' '
    let new_char :=
      if vowels.data.contains original.toLower then
        (vowels.data.filter (fun c => c ≠ original.toLower)).getD
          (d.charPick % (vowels.data.filter (fun c => c ≠ original.toLower)).length) ' '
      else if consonants.data.contains original.toLower then
        (consonants.data.filter (fun c => c ≠ original.toLower)).getD
          (d.charPick % (consonants.data.filter (fun c => c ≠ original.toLower)).length) ' '
      else
        (vowels ++ consonants).data.getD
          (d.charPick % (vowels ++ consonants).length) ' '
    let new_char := if original.isUpper then new_char.toUpper else new_char
    (chars.set pos new_char, state.2 + 1)
  else if mutation = "swap" ∧ chars.length > 1 ∧ pos < chars.length - 1 then
    ((chars.set pos (chars.getD (pos + 1) ' ')).set (pos + 1)
      (chars.getD pos ' '), state.2 + 1)
  else
    state

/-- The loop guard:
`mutations_applied < target_distance and len(chars) > 0`. -/
def applyDistanceGuard (target_distance : Nat)
    (state : List Char × Nat) : Bool :=
  decide (state.2 < target_distance) && decide (0 < state.1.length)

/-- `n` guarded iterations of the loop body, consuming draw records
`draws k, draws (k+1), ...`. -/
def applyDistanceIter (mutation_type : String) (draws : Nat → MutationDraws)
    (target_distance : Nat) : Nat → Nat → (List Char × Nat) →
    List Char × Nat
  | 0, _, st => st
  | fuel + 1, k, st =>
    if applyDistanceGuard target_distance st then
      applyDistanceIter mutation_type draws target_distance fuel (k + 1)
        (applyDistanceStep mutation_type (draws k) st)
    else st

/-- The source's loop exits: after some number of iterations the guard is
false (the edits applied reached the target, or the string is exhausted). -/
def applyDistanceLoopExits (mutation_type : String)
    (draws : Nat → MutationDraws) (target_distance : Nat)
    (text : String) : Prop :=
  ∃ n, applyDistanceGuard target_distance
    (applyDistanceIter mutation_type draws target_distance n 0
      (text.data, 0)) = false

/-! ### Shared lemmas used by several claim developments -/

/-- An unknown category makes `inject_violation` return the text unchanged
with the sentinel `"unknown_violation"`. -/
theorem inject_violation_unknown (text violation_type : String)
    (intensity : Rat) (pick : Nat)
    (h : VIOLATION_PATTERNS.lookup violation_type = none) :
    inject_violation text violation_type intensity pick
      = (text, "unknown_violation") := by
  unfold inject_violation
  rw [h]

/-- A known category makes `inject_violation` report that category itself as
the injected-violation description, in every intensity branch. -/
theorem inject_violation_known (text violation_type : String)
    (intensity : Rat) (pick : Nat) (ps : List String)
    (h : VIOLATION_PATTERNS.lookup violation_type = some ps) :
    (inject_violation text violation_type intensity pick).2
      = violation_type := by
  unfold inject_violation
  rw [h]
  by_cases h0 : splitSentences text = []
  · simp [h0]
  · by_cases h1 : intensity < 3/10
    · simp [h0, h1]
    · by_cases h2 : intensity < 7/10
      · simp [h0, h1, h2]
      · simp [h0, h1, h2]

/-- Indexing a mapped `List.range`. -/
theorem getD_map_range {α : Type} (f : Nat → α) (d : α) (N i : Nat)
    (hi : i < N) : ((List.range N).map f).getD i d = f i := by
  rw [List.getD_eq_getElem?_getD, List.getElem?_map, List.getElem?_range hi]
  rfl

/-- With a truthy (non-empty) violation type, `derive_contribution` records a
one-element injected-violations list and forces `expected_valid := false`. -/
theorem derive_contribution_inject (ad1 ad2 : String → Nat → String)
    (pick : Nat) (md5 : String → String) (parent : MockContribution)
    (td : Nat) (v : String) (intensity : Rat) (hv : v ≠ "") :
    (derive_contribution ad1 ad2 pick md5 parent td (some v) intensity).violations_injected.getD [] ≠ []
    ∧ (derive_contribution ad1 ad2 pick md5 parent td (some v) intensity).expected_valid = some false := by
  unfold derive_contribution
  by_cases hmi : ad2 parent.idees_ameliorations (td / 2) = ""
  · simp [hv, hmi]
  · simp [hv, hmi]

/-- With no violation type requested, `derive_contribution` records no
injected violation and inherits the parent's `expected_valid`. -/
theorem derive_contribution_no_inject (ad1 ad2 : String → Nat → String)
    (pick : Nat) (md5 : String → String) (parent : MockContribution)
    (td : Nat) (intensity : Rat) :
    (derive_contribution ad1 ad2 pick md5 parent td none intensity).violations_injected = none
    ∧ (derive_contribution ad1 ad2 pick md5 parent td none intensity).violations_injected.getD [] = []
    ∧ (derive_contribution ad1 ad2 pick md5 parent td none intensity).expected_valid = parent.expected_valid := by
  unfold derive_contribution
  simp

/-! ### Claim C9 -/

/-- Claim C9: for all strings `a` and `b`,
`distance(a, b) == distance(b, a)`; for every string `a`,
`distance(a, a) == 0`; and for every string `s`,
`distance("", s) == len(s)`. -/
theorem C9_levenshtein_properties :
    (∀ a b : List Char, levenshtein_distance a b = levenshtein_distance b a)
    ∧ (∀ a : List Char, levenshtein_distance a a = 0)
    ∧ (∀ s : List Char, levenshtein_distance [] s = s.length) := by
  refine ⟨?_, ?_, ?_⟩
  · intro a b
    rw [levenshtein_eq_levRec, levenshtein_eq_levRec]
    exact levRec_symm _ _
  · intro a
    rw [levenshtein_eq_levRec]
    exact levRec_self _
  · intro s
    rw [levenshtein_eq_levRec]
    rw [List.reverse_nil, levRec_nil_left, List.length_reverse]

/-! ### Claim C1 -/

/-- A stored record on which the classifier verdict (`is_valid = true`)
disagrees with the ground truth (`expected_valid = false`). -/
def recordC1 : ValidationRecord :=
  { id := "c8f3", date := "2025-06-01", title := "Le port manque de places"
    body := "Le port manque de places"
    category := some "cadre_de_vie"
    constat_factuel := "Le port manque de places"
    idees_ameliorations := "Créer un parking relais"
    is_valid := true
    violations := []
    encouraged_aspects := []
    confidence := 9/10
    reasoning := "ras"
    suggested_category := none
    category_confidence := 0
    category_reasoning := ""
    source := "derived"
    expected_valid := some false
    parent_id := some "a1b2"
    similarity_to_parent := none
    distance_from_parent := some 12
    violations_injected := ["personal_attack"]
    provider := "ollama"
    model := "mistral:latest"
    execution_time_ms := none
    trace_id := none
    timestamp := "2025-06-01T10:00:00" }

/-- Claim C1, counterexample: for `recordC1` the ground-truth label
`expected_valid` is `false`, yet the exported `expected_output.is_valid` is
`true` — `to_opik_item` copies the record's own `is_valid` (the classifier's
verdict) into `expected_output`, not the `expected_valid` ground truth. -/
theorem C1_counterexample :
    recordC1.expected_valid = some false
    ∧ recordC1.to_opik_item.expected_output.is_valid = true :=
  ⟨rfl, rfl⟩

/-- Claim C1 (amended): exporting a record yields an `input` whose text fields
equal the record's own text fields, an `expected_output.is_valid` equal to the
record's stored `is_valid` (the classifier's verdict), while the
`expected_valid` ground truth is exported under `metadata.expected_valid`. -/
theorem C1_export_round_trip (r : ValidationRecord) :
    r.to_opik_item.input.title = r.title
    ∧ r.to_opik_item.input.body = r.body
    ∧ r.to_opik_item.input.constat_factuel = r.constat_factuel
    ∧ r.to_opik_item.input.idees_ameliorations = r.idees_ameliorations
    ∧ r.to_opik_item.expected_output.is_valid = r.is_valid
    ∧ r.to_opik_item.metadata.expected_valid = r.expected_valid :=
  ⟨rfl, rfl, rfl, rfl, rfl, rfl⟩

/-! ### Claim C2 -/

/-- Claim C2, counterexample: with the unknown category `"bogus"` the injector
does not fail: it returns normally, with the text unchanged and the sentinel
value `"unknown_violation"`. -/
theorem C2_counterexample :
    inject_violation "Bonjour tout le monde." "bogus" (1/2) 0
      = ("Bonjour tout le monde.", "unknown_violation") := by
  decide

/-- Claim C2 (amended): for every text, every intensity and every draw,
calling the injector with a violation-category tag outside the catalog does
not raise: it returns the text unchanged, paired with the sentinel tag
`"unknown_violation"`. -/
theorem C2_unknown_category_sentinel (text violation_type : String)
    (intensity : Rat) (pick : Nat)
    (h : VIOLATION_PATTERNS.lookup violation_type = none) :
    inject_violation text violation_type intensity pick
      = (text, "unknown_violation") :=
  inject_violation_unknown text violation_type intensity pick h

/-- Witness for `C2_unknown_category_sentinel` at a concrete input. -/
theorem C2_witness :
    VIOLATION_PATTERNS.lookup "hors_sujet" = none
    ∧ inject_violation "Salut à tous." "hors_sujet" (3/10) 7
        = ("Salut à tous.", "unknown_violation") :=
  ⟨by decide,
    C2_unknown_category_sentinel "Salut à tous." "hors_sujet" (3/10) 7
      (by decide)⟩

/-! ### Claim C3 -/

/-- Classifier output that names a violation but keeps the item valid. -/
def outC3 : ClassifierOutputDict :=
  { is_valid := some true
    violations := some ["attaque personnelle"]
    confidence := none }

/-- Metadata of an item that does carry injected violations. -/
def metaC3 : MetadataDict :=
  { violations_injected := some ["personal_attack"]
    expected_valid := some false }

/-- Claim C3, counterexample: an item with injected violations on which the
classifier names a violation string but marks the item VALID still scores 1.0
— contradicting "1.0 exactly when the classifier output both names at least
one violation string AND marks the item invalid". -/
theorem C3_counterexample :
    metaC3.violations_injected.getD [] ≠ []
    ∧ outC3.is_valid.getD true = true
    ∧ ViolationDetectionMetric.score outC3 metaC3 = 1 := by
  refine ⟨by decide, rfl, by decide⟩

/-- Claim C3 (amended): for every item with a non-empty injected-violations
list, the score is 1.0 exactly when the classifier names at least one
violation string (whether or not it marks the item invalid), and 0.5 exactly
when it names none and marks the item invalid; for every item with no
injected violations the score is 1.0 exactly when the classifier found zero
violations. -/
theorem C3_violation_detection_score (output : ClassifierOutputDict)
    (metadata : MetadataDict) :
    (metadata.violations_injected.getD [] ≠ [] →
      ((ViolationDetectionMetric.score output metadata = 1
          ↔ output.violations.getD [] ≠ [])
        ∧ (ViolationDetectionMetric.score output metadata = 1/2
          ↔ (output.violations.getD [] = []
              ∧ output.is_valid.getD true = false))))
    ∧ (metadata.violations_injected.getD [] = [] →
      (ViolationDetectionMetric.score output metadata = 1
        ↔ output.violations.getD [] = [])) := by
  constructor
  · intro h
    by_cases hv : output.violations.getD [] = []
    · by_cases hiv : output.is_valid.getD true = false
      · have hs : ViolationDetectionMetric.score output metadata = 1/2 := by
          simp only [ViolationDetectionMetric.score]
          rw [if_neg h, if_pos ⟨hv, hiv⟩]
        rw [hs]
        exact ⟨⟨fun h12 => absurd h12 (by decide), fun hne => absurd hv hne⟩,
          ⟨fun _ => ⟨hv, hiv⟩, fun _ => rfl⟩⟩
      · have hs : ViolationDetectionMetric.score output metadata = 0 := by
          simp only [ViolationDetectionMetric.score]
          rw [if_neg h, if_neg (fun hc => hiv hc.2),
            if_neg (fun hne => hne hv)]
        rw [hs]
        exact ⟨⟨fun h01 => absurd h01 (by decide), fun hne => absurd hv hne⟩,
          ⟨fun h012 => absurd h012 (by decide),
            fun hc => absurd hc.2 hiv⟩⟩
    · have hs : ViolationDetectionMetric.score output metadata = 1 := by
        simp only [ViolationDetectionMetric.score]
        rw [if_neg h, if_neg (fun hc : _ ∧ _ => hv hc.1), if_pos hv]
      rw [hs]
      exact ⟨⟨fun _ => hv, fun _ => rfl⟩,
        ⟨fun h112 => absurd h112 (by decide), fun hc => absurd hc.1 hv⟩⟩
  · intro h
    by_cases hv : output.violations.getD [] = []
    · have hs : ViolationDetectionMetric.score output metadata = 1 := by
        simp only [ViolationDetectionMetric.score]
        rw [if_pos h, if_pos hv]
      rw [hs]
      exact ⟨fun _ => hv, fun _ => rfl⟩
    · have hs : ViolationDetectionMetric.score output metadata = 1/2 := by
        simp only [ViolationDetectionMetric.score]
        rw [if_pos h, if_neg hv]
      rw [hs]
      exact ⟨fun h121 => absurd h121 (by decide), fun h1 => absurd h1 hv⟩

/-- Witness for `C3_violation_detection_score` at a concrete input: the
blanket-reject case (invalid, no violation named) scores 0.5. -/
theorem C3_witness :
    ViolationDetectionMetric.score
      { is_valid := some false, violations := some [], confidence := none }
      { violations_injected := some ["aggressive"], expected_valid := some false }
      = 1/2 :=
  ((C3_violation_detection_score
      { is_valid := some false, violations := some [], confidence := none }
      { violations_injected := some ["aggressive"], expected_valid := some false }).1
    (by decide)).2.mpr ⟨rfl, rfl⟩

/-! ### Claim C4 -/

/-- The `i`-th member of a variation series generated with progressive
violations enabled. -/
def variationSeriesItem (ad1 ad2 : Nat → String → Nat → String)
    (pick : Nat → Nat) (md5 : String → String) (parent : MockContribution)
    (N : Nat) ( max_distance_ratio : Rat) (i : Nat) : MockContribution :=
  (generate_variation_series ad1 ad2 pick md5 parent N max_distance_ratio
    true).getD i default

/-- Claim C4: in a series with progressive violations, step `i` (0-based;
`progress = (i+1)/N`) carries an injected violation exactly when
`progress > 0.4`; a variant with an injected violation has
`expected_valid = false`, and one without inherits the parent's label.
Quantified over all PRNG/mutation/hash oracles. -/
theorem C4_progressive_violations (ad1 ad2 : Nat → String → Nat → String)
    (pick : Nat → Nat) (md5 : String → String) (parent : MockContribution)
    (N : Nat) ( max_distance_ratio : Rat) (hN : 1 ≤ N) (i : Nat)
    (hi : i < N) :
    ((variationSeriesItem ad1 ad2 pick md5 parent N max_distance_ratio
        i).violations_injected.getD [] ≠ []
      ↔ (((i + 1 : Nat) : Rat) / (N : Rat) > 4/10))
    ∧ ((variationSeriesItem ad1 ad2 pick md5 parent N max_distance_ratio
        i).violations_injected.getD [] ≠ [] →
      (variationSeriesItem ad1 ad2 pick md5 parent N max_distance_ratio
        i).expected_valid = some false)
    ∧ ((variationSeriesItem ad1 ad2 pick md5 parent N max_distance_ratio
        i).violations_injected.getD [] = [] →
      (variationSeriesItem ad1 ad2 pick md5 parent N max_distance_ratio
        i).expected_valid = parent.expected_valid) := by
  have hkey : ∀ m : Nat, m < 4 →
      (VIOLATION_PATTERNS.map (fun p => p.1)).getD m "" ≠ "" := by
    intro m hm
    rcases m with _ | _ | _ | _ | m
    · decide
    · decide
    · decide
    · decide
    · omega
  unfold variationSeriesItem
  unfold generate_variation_series
  rw [getD_map_range _ _ N i hi]
  dsimp only
  by_cases hp : (((i + 1 : Nat) : Rat)) / (N : Rat) > 4/10
  · rw [if_pos ⟨rfl, hp⟩]
    refine ⟨⟨fun _ => hp,
        fun _ => (derive_contribution_inject _ _ _ _ _ _ _ _ ?_).1⟩,
      fun _ => (derive_contribution_inject _ _ _ _ _ _ _ _ ?_).2,
      fun hemp => absurd hemp
        (derive_contribution_inject _ _ _ _ _ _ _ _ ?_).1⟩
    all_goals
      exact hkey _ (lt_of_le_of_lt (Nat.min_le_right _ _) (by decide))
  · rw [if_neg (fun hc : _ ∧ _ => hp hc.2)]
    refine ⟨⟨fun hne => absurd
          (derive_contribution_no_inject _ _ _ _ _ _ _).2.1 hne,
        fun hgt => absurd hgt hp⟩,
      fun hne => absurd (derive_contribution_no_inject _ _ _ _ _ _ _).2.1 hne,
      fun _ => (derive_contribution_no_inject _ _ _ _ _ _ _).2.2⟩

/-- Identity mutation oracle (the mutated text equals the input), used to
instantiate witnesses. -/
def idMutOracle : Nat → String → Nat → String := fun _ s _ => s

/-- A concrete seed contribution for witnesses. -/
def parentC4 : MockContribution :=
  { id := "p1"
    category := some "cadre_de_vie"
    constat_factuel := "Le port manque de places."
    idees_ameliorations := "Créer un parking relais."
    source := "mock"
    parent_id := none
    distance_from_parent := none
    similarity_to_parent := none
    expected_valid := some true
    violations_injected := none
    metadata := none }

/-- Witness for `C4_progressive_violations` at `N = 5`, `i = 4`
(`progress = 1 > 0.4`). -/
theorem C4_witness :
    ((variationSeriesItem idMutOracle idMutOracle (fun _ => 0) (fun _ => "h")
        parentC4 5 (3/10) 4).violations_injected.getD [] ≠ []
      ↔ (((4 + 1 : Nat) : Rat) / ((5 : Nat) : Rat) > 4/10))
    ∧ ((variationSeriesItem idMutOracle idMutOracle (fun _ => 0) (fun _ => "h")
        parentC4 5 (3/10) 4).violations_injected.getD [] ≠ [] →
      (variationSeriesItem idMutOracle idMutOracle (fun _ => 0) (fun _ => "h")
        parentC4 5 (3/10) 4).expected_valid = some false)
    ∧ ((variationSeriesItem idMutOracle idMutOracle (fun _ => 0) (fun _ => "h")
        parentC4 5 (3/10) 4).violations_injected.getD [] = [] →
      (variationSeriesItem idMutOracle idMutOracle (fun _ => 0) (fun _ => "h")
        parentC4 5 (3/10) 4).expected_valid = parentC4.expected_valid) :=
  C4_progressive_violations idMutOracle idMutOracle (fun _ => 0) (fun _ => "h")
    parentC4 5 (3/10) (by decide) 4 (by decide)

/-! ### Claim C5 -/

/-- A single evaluated item with unknown ground truth
(`metadata.expected_valid = None`) and no `is_valid` key in its
`expected_output`, marked invalid by the classifier. -/
def trC5 : TestResult :=
  { output := { is_valid := some false, violations := none, confidence := none }
    expected_output := { is_valid := none }
    metadata := { violations_injected := none, expected_valid := none } }

/-- Claim C5, counterexample: the experiment scorer counts an item with
unknown ground truth: over the single item `trC5` it reports
`charter_accuracy = 0` (denominator 1, the unknown item scored as a failure
against the default `expected_output.is_valid = True`) instead of excluding
it. -/
theorem C5_counterexample :
    trC5.metadata.expected_valid = none
    ∧ (calculateExperimentScores [trC5]).charter_accuracy = some 0 :=
  ⟨rfl, by decide⟩

/-- The per-record indicator `1 if actualValid == expectedValid else 0`
summed over the records with known ground truth equals the count of records
whose `matches_expected()` is `True`. -/
theorem matches_count_eq_sum (l : List ValidationRecord) :
    ((l.filter (fun r => r.expected_valid ≠ none)).map
      (fun r => if some r.is_valid = r.expected_valid then (1 : Rat) else 0)).sum
    = (((l.filter (fun r => r.matches_expected == some true)).length : Nat) : Rat) := by
  induction l with
  | nil => simp
  | cons r t ih =>
    by_cases he : r.expected_valid = none
    · have hf1 : ¬ (decide (r.expected_valid ≠ none) = true) := by simp [he]
      have hf2 : ¬ ((r.matches_expected == some true) = true) := by
        simp [ValidationRecord.matches_expected, he]
      rw [List.filter_cons, List.filter_cons, if_neg hf1, if_neg hf2]
      exact ih
    · obtain ⟨e, he2⟩ := Option.ne_none_iff_exists'.mp he
      have hf1 : (decide (r.expected_valid ≠ none) = true) := by simp [he]
      by_cases hv : r.is_valid = e
      · have hf2 : ((r.matches_expected == some true) = true) := by
          simp [ValidationRecord.matches_expected, he2, hv]
        rw [List.filter_cons, List.filter_cons, if_pos hf1, if_pos hf2,
          List.map_cons, List.sum_cons, if_pos (by rw [he2, hv]),
          List.length_cons, ih]
        push_cast
        ring
      · have hf2 : ¬ ((r.matches_expected == some true) = true) := by
          simp [ValidationRecord.matches_expected, he2, hv]
        have h3 : ¬ (some r.is_valid = r.expected_valid) := by
          rw [he2]
          intro hc
          exact hv (Option.some.inj hc)
        rw [List.filter_cons, List.filter_cons, if_pos hf1, if_neg hf2,
          List.map_cons, List.sum_cons, if_neg h3, ih]
        ring

/-- Claim C5 (amended): the workflow accuracy (`run_workflow`) is the mean of
`1 if actualValid == expectedValid else 0` over exactly the records with a
known `expected_valid` (records with unknown ground truth are excluded from
numerator and denominator, and the accuracy is `None` when no record has
ground truth); the experiment scorer's `charter_accuracy`, however, is the
mean over ALL test results of the comparison against
`expected_output.get("is_valid", True)`, with no exclusion of unknown ground
truth. -/
theorem C5_accuracy_means :
    (∀ records : List ValidationRecord,
      records.filter (fun r => r.expected_valid ≠ none) ≠ [] →
      workflowAccuracy records
        = some (((records.filter (fun r => r.expected_valid ≠ none)).map
            (fun r => if some r.is_valid = r.expected_valid then (1 : Rat) else 0)).sum
          / (((records.filter (fun r => r.expected_valid ≠ none)).length : Nat) : Rat)))
    ∧ (∀ records : List ValidationRecord,
      records.filter (fun r => r.expected_valid ≠ none) = [] →
      workflowAccuracy records = none)
    ∧ (∀ trs : List TestResult, trs ≠ [] →
      (calculateExperimentScores trs).charter_accuracy
        = some ((trs.map (fun t =>
            if t.output.is_valid.getD true = t.expected_output.is_valid.getD true
            then (1 : Rat) else 0)).sum
          / ((trs.length : Nat) : Rat))) := by
  refine ⟨?_, ?_, ?_⟩
  · intro records h
    have hne : records ≠ [] := by
      intro he
      rw [he] at h
      exact h rfl
    unfold workflowAccuracy
    rw [if_pos (List.length_pos.mpr hne), if_pos h, matches_count_eq_sum]
  · intro records h
    unfold workflowAccuracy
    by_cases hn : records.length > 0
    · rw [if_pos hn, if_neg (fun hne => hne h)]
    · rw [if_neg hn]
  · intro trs h
    unfold calculateExperimentScores
    dsimp only
    rw [if_pos (by simpa using h : trs.map _ ≠ ([] : List Rat))]
    rw [List.length_map]

/-- A record with known ground truth for the `C5` witness. -/
def recC5w : ValidationRecord :=
  { recordC1 with id := "w5", expected_valid := some true }

/-- Witness for `C5_accuracy_means` at a concrete one-record input. -/
theorem C5_witness :
    [recC5w].filter (fun r => r.expected_valid ≠ none) ≠ []
    ∧ workflowAccuracy [recC5w]
        = some ((([recC5w].filter (fun r => r.expected_valid ≠ none)).map
            (fun r => if some r.is_valid = r.expected_valid then (1 : Rat) else 0)).sum
          / ((([recC5w].filter (fun r => r.expected_valid ≠ none)).length : Nat) : Rat)) :=
  ⟨by decide, C5_accuracy_means.1 [recC5w] (by decide)⟩

/-! ### Claim C6 -/

/-- True positive (expected invalid, marked invalid). -/
def tTPc6 : TestResult :=
  { output := { is_valid := some false, violations := some ["v"], confidence := none }
    expected_output := { is_valid := some false }
    metadata := { violations_injected := none, expected_valid := some false } }

/-- False negative (expected invalid, marked valid). -/
def tFNc6 : TestResult :=
  { output := { is_valid := some true, violations := none, confidence := none }
    expected_output := { is_valid := some false }
    metadata := { violations_injected := none, expected_valid := some false } }

/-- True negative (expected valid, marked valid). -/
def tTNc6 : TestResult :=
  { output := { is_valid := some true, violations := none, confidence := none }
    expected_output := { is_valid := some true }
    metadata := { violations_injected := none, expected_valid := some true } }

/-- False positive (expected valid, marked invalid). -/
def tFPc6 : TestResult :=
  { output := { is_valid := some false, violations := none, confidence := none }
    expected_output := { is_valid := some true }
    metadata := { violations_injected := none, expected_valid := some true } }

/-- The hand-picked dataset of the claim: 3 TP, 1 FN, 2 TN, 0 FP. -/
def trsC6 : List TestResult := [tTPc6, tTPc6, tTPc6, tFNc6, tTNc6, tTNc6]

/-- Claim C6, counterexample: on a dataset with `tp = 0`, `fp = 1`, `fn = 1`
both precision and recall are defined (`0.0`, not `None`), yet `f1_score`
stays `None` — because `if result.precision and result.recall:` treats the
float `0.0` as falsy — contradicting "F1 equals 2*P*R/(P+R) whenever
precision and recall are defined". -/
theorem C6_counterexample :
    (calculateExperimentScores [tFPc6, tFNc6]).precision = some 0
    ∧ (calculateExperimentScores [tFPc6, tFNc6]).recall_score = some 0
    ∧ (calculateExperimentScores [tFPc6, tFNc6]).f1_score = none := by
  decide

/-- Claim C6 (amended): with "expected invalid" as the positive class,
precision is `TP/(TP+FP)` and recall is `TP/(TP+FN)`, each `None` exactly when
its denominator is zero; F1 is `2*P*R/(P+R)` whenever precision and recall
are defined AND both non-zero (when both are defined but zero — `TP = 0` with
`FP` and `FN` positive — the source's truthiness test leaves F1 `None`); and
the hand-picked dataset with 3 TP, 1 FN, 2 TN, 0 FP yields `recall == 0.75`,
`precision == 1.0` and the corresponding F1. -/
theorem C6_precision_recall_f1 :
    (∀ trs : List TestResult,
      ((calculateExperimentScores trs).precision = none
        ↔ (calculateExperimentScores trs).true_positives
            + (calculateExperimentScores trs).false_positives = 0)
      ∧ ((calculateExperimentScores trs).true_positives
            + (calculateExperimentScores trs).false_positives > 0 →
          (calculateExperimentScores trs).precision
            = some (((calculateExperimentScores trs).true_positives : Rat)
              / (((calculateExperimentScores trs).true_positives
                + (calculateExperimentScores trs).false_positives : Nat) : Rat)))
      ∧ ((calculateExperimentScores trs).recall_score = none
        ↔ (calculateExperimentScores trs).true_positives
            + (calculateExperimentScores trs).false_negatives = 0)
      ∧ ((calculateExperimentScores trs).true_positives
            + (calculateExperimentScores trs).false_negatives > 0 →
          (calculateExperimentScores trs).recall_score
            = some (((calculateExperimentScores trs).true_positives : Rat)
              / (((calculateExperimentScores trs).true_positives
                + (calculateExperimentScores trs).false_negatives : Nat) : Rat)))
      ∧ (∀ p r : Rat, (calculateExperimentScores trs).precision = some p →
          (calculateExperimentScores trs).recall_score = some r →
          p ≠ 0 → r ≠ 0 →
          (calculateExperimentScores trs).f1_score
            = some (2 * (p * r) / (p + r))))
    ∧ ((calculateExperimentScores trsC6).recall_score = some (3/4)
      ∧ (calculateExperimentScores trsC6).precision = some 1
      ∧ (calculateExperimentScores trsC6).f1_score
          = some (2 * ((1 : Rat) * (3/4)) / (1 + 3/4))) := by
  constructor
  · intro trs
    unfold calculateExperimentScores
    dsimp only
    refine ⟨?_, ?_, ?_, ?_, ?_⟩
    · by_cases h : (trs.filter (fun t =>
          t.expected_output.is_valid.getD true = false
          ∧ t.output.is_valid.getD true = false)).length
          + (trs.filter (fun t =>
          t.expected_output.is_valid.getD true = true
          ∧ t.output.is_valid.getD true = false)).length > 0
      · rw [if_pos h]
        simp only [reduceCtorEq, false_iff]
        omega
      · rw [if_neg h]
        simp only [true_iff]
        omega
    · intro h
      rw [if_pos h]
    · by_cases h : (trs.filter (fun t =>
          t.expected_output.is_valid.getD true = false
          ∧ t.output.is_valid.getD true = false)).length
          + (trs.filter (fun t =>
          t.expected_output.is_valid.getD true = false
          ∧ t.output.is_valid.getD true = true)).length > 0
      · rw [if_pos h]
        simp only [reduceCtorEq, false_iff]
        omega
      · rw [if_neg h]
        simp only [true_iff]
        omega
    · intro h
      rw [if_pos h]
    · intro p r hp hr hp0 hr0
      by_cases h1 : (trs.filter (fun t =>
          t.expected_output.is_valid.getD true = false
          ∧ t.output.is_valid.getD true = false)).length
          + (trs.filter (fun t =>
          t.expected_output.is_valid.getD true = true
          ∧ t.output.is_valid.getD true = false)).length > 0
      · by_cases h2 : (trs.filter (fun t =>
            t.expected_output.is_valid.getD true = false
            ∧ t.output.is_valid.getD true = false)).length
            + (trs.filter (fun t =>
            t.expected_output.is_valid.getD true = false
            ∧ t.output.is_valid.getD true = true)).length > 0
        · rw [if_pos h1] at hp
          rw [if_pos h2] at hr
          rw [if_pos h1, if_pos h2]
          dsimp only
          rw [Option.some.inj hp, Option.some.inj hr,
            if_pos ⟨hp0, hr0⟩]
        · rw [if_neg h2] at hr
          exact absurd hr (by simp)
      · rw [if_neg h1] at hp
        exact absurd hp (by simp)
  · refine ⟨by decide, by decide, by decide⟩

/-- Witness for `C6_precision_recall_f1`: on the hand-picked 3/1/2/0 dataset
precision and recall are defined and non-zero, so F1 is the standard
formula. -/
theorem C6_witness :
    (calculateExperimentScores trsC6).f1_score
      = some (2 * ((1 : Rat) * (3/4)) / (1 + 3/4)) :=
  (C6_precision_recall_f1.1 trsC6).2.2.2.2 1 (3/4)
    C6_precision_recall_f1.2.2.1
    C6_precision_recall_f1.2.1
    (by decide) (by decide)

/-! ### Claim C7 -/

/-- Claim C7: for every ordered list and all nonnegative ratios summing to
1.0, the split returns three contiguous, non-overlapping, order-preserving
slices of sizes `floor(n*trainRatio)`, `floor(n*valRatio)` and the remainder;
the lengths sum to `n`, the concatenation reproduces the list, and an empty
input yields three empty outputs. -/
theorem C7_split {α : Type} (items : List α)
    ( train_ratio val_ratio test_ratio : Rat)
    (h1 : 0 ≤ train_ratio) (h2 : 0 ≤ val_ratio) (h3 : 0 ≤ test_ratio)
    (hsum : train_ratio + val_ratio + test_ratio = 1) :
    (create_train_val_test_split items train_ratio val_ratio test_ratio).1.length
        = (⌊(items.length : Rat) * train_ratio⌋).toNat
    ∧ (create_train_val_test_split items train_ratio val_ratio test_ratio).2.1.length
        = (⌊(items.length : Rat) * val_ratio⌋).toNat
    ∧ (create_train_val_test_split items train_ratio val_ratio test_ratio).1.length
        + (create_train_val_test_split items train_ratio val_ratio test_ratio).2.1.length
        + (create_train_val_test_split items train_ratio val_ratio test_ratio).2.2.length
        = items.length
    ∧ (create_train_val_test_split items train_ratio val_ratio test_ratio).1
        ++ (create_train_val_test_split items train_ratio val_ratio test_ratio).2.1
        ++ (create_train_val_test_split items train_ratio val_ratio test_ratio).2.2
        = items
    ∧ (items = [] →
        create_train_val_test_split items train_ratio val_ratio test_ratio
          = ([], [], [])) := by
  by_cases hie : items.isEmpty
  · have hnil : items = [] := List.isEmpty_iff.mp hie
    subst hnil
    refine ⟨by simp [create_train_val_test_split], by simp [create_train_val_test_split],
      by simp [create_train_val_test_split], by simp [create_train_val_test_split],
      fun _ => by simp [create_train_val_test_split]⟩
  · have hform : create_train_val_test_split items train_ratio val_ratio test_ratio
        = (items.take ((⌊(items.length : Rat) * train_ratio⌋).toNat),
           (items.drop ((⌊(items.length : Rat) * train_ratio⌋).toNat)).take
             (((⌊(items.length : Rat) * train_ratio⌋).toNat
               + (⌊(items.length : Rat) * val_ratio⌋).toNat)
              - (⌊(items.length : Rat) * train_ratio⌋).toNat),
           items.drop ((⌊(items.length : Rat) * train_ratio⌋).toNat
               + (⌊(items.length : Rat) * val_ratio⌋).toNat)) := by
      unfold create_train_val_test_split
      rw [if_neg (by simpa using hie)]
    rw [hform]
    set A := (⌊(items.length : Rat) * train_ratio⌋).toNat with hAdef
    set B := (⌊(items.length : Rat) * val_ratio⌋).toNat with hBdef
    have h0A : (0 : Int) ≤ ⌊(items.length : Rat) * train_ratio⌋ :=
      Int.floor_nonneg.mpr (mul_nonneg (by positivity) h1)
    have h0B : (0 : Int) ≤ ⌊(items.length : Rat) * val_ratio⌋ :=
      Int.floor_nonneg.mpr (mul_nonneg (by positivity) h2)
    have hABn : ⌊(items.length : Rat) * train_ratio⌋
        + ⌊(items.length : Rat) * val_ratio⌋ ≤ (items.length : Int) := by
      have hf1 := Int.floor_le ((items.length : Rat) * train_ratio)
      have hf2 := Int.floor_le ((items.length : Rat) * val_ratio)
      have htv : train_ratio + val_ratio ≤ 1 := by linarith
      have hle : (items.length : Rat) * train_ratio
          + (items.length : Rat) * val_ratio ≤ (items.length : Rat) := by
        nlinarith [Nat.cast_nonneg (α := Rat) items.length]
      have hfl : (⌊(items.length : Rat) * train_ratio⌋
          + ⌊(items.length : Rat) * val_ratio⌋ : Int)
          ≤ ⌊(items.length : Rat)⌋ := by
        apply Int.le_floor.mpr
        push_cast
        linarith
      simpa [Int.floor_natCast] using hfl
    have hAn : A ≤ items.length := by omega
    have hABn' : A + B ≤ items.length := by omega
    refine ⟨?_, ?_, ?_, ?_,
      fun he => absurd (List.isEmpty_iff.mpr he) hie⟩
    · rw [List.length_take, Nat.min_eq_left hAn]
    · rw [List.length_take, List.length_drop]
      omega
    · simp only [List.length_take, List.length_drop]
      omega
    · have hAB : A + B - A = B := by omega
      have hdd : (items.drop A).drop B = items.drop (A + B) := by
        rw [List.drop_drop, Nat.add_comm]
      rw [hAB, ← hdd]
      dsimp only
      rw [List.append_assoc, List.take_append_drop, List.take_append_drop]

/-- Witness for `C7_split` on ten items with ratios `0.7/0.15/0.15`. -/
theorem C7_witness :
    (create_train_val_test_split (List.range 10) (7/10) (15/100) (15/100)).1.length
        = (⌊((List.range 10).length : Rat) * (7/10)⌋).toNat
    ∧ (create_train_val_test_split (List.range 10) (7/10) (15/100) (15/100)).2.1.length
        = (⌊((List.range 10).length : Rat) * (15/100)⌋).toNat
    ∧ (create_train_val_test_split (List.range 10) (7/10) (15/100) (15/100)).1.length
        + (create_train_val_test_split (List.range 10) (7/10) (15/100) (15/100)).2.1.length
        + (create_train_val_test_split (List.range 10) (7/10) (15/100) (15/100)).2.2.length
        = (List.range 10).length
    ∧ (create_train_val_test_split (List.range 10) (7/10) (15/100) (15/100)).1
        ++ (create_train_val_test_split (List.range 10) (7/10) (15/100) (15/100)).2.1
        ++ (create_train_val_test_split (List.range 10) (7/10) (15/100) (15/100)).2.2
        = List.range 10
    ∧ (List.range 10 = [] →
        create_train_val_test_split (List.range 10) (7/10) (15/100) (15/100)
          = ([], [], [])) :=
  C7_split (List.range 10) (7/10) (15/100) (15/100)
    (by decide) (by decide) (by decide) (by decide)

/-! ### Claim C8 -/

/-- Claim C8 (code bug): with `mutation_type = "delete"`, a nonempty text of
length ≤ 10 (here `"ab"`) and target distance 1, no branch of the loop body
applies (deleting requires `len(chars) > 10`, and no other branch matches the
`"delete"` tag), so the state never changes, the guard stays true, and the
edit loop of `apply_distance` never exits — for every possible draw stream.
The claim "the edit loop ends either with the number of edits applied equal
to the requested target count or with the string exhausted" fails on this
input. -/
theorem C8_delete_loop_diverges (draws : Nat → MutationDraws) :
    (∀ n k, applyDistanceIter "delete" draws 1 n k ("ab".data, 0)
        = ("ab".data, 0))
    ∧ applyDistanceGuard 1 ("ab".data, 0) = true
    ∧ ¬ applyDistanceLoopExits "delete" draws 1 "ab" := by
  have hstep : ∀ d : MutationDraws,
      applyDistanceStep "delete" d ("ab".data, 0) = ("ab".data, 0) :=
    fun _ => rfl
  have hiter : ∀ n k, applyDistanceIter "delete" draws 1 n k ("ab".data, 0)
      = ("ab".data, 0) := by
    intro n
    induction n with
    | zero => intro k; rfl
    | succ n ih =>
      intro k
      rw [applyDistanceIter, if_pos (by decide), hstep (draws k)]
      exact ih (k + 1)
  refine ⟨hiter, rfl, ?_⟩
  intro hex
  obtain ⟨n, hn⟩ := hex
  rw [hiter n 0] at hn
  exact absurd hn (by decide)

/-! ### Claim C10 -/

/-- A parent contribution with `expected_valid = true` and short texts. -/
def parentC10 : MockContribution :=
  { id := "p2"
    category := some "voirie"
    constat_factuel := "Ab."
    idees_ameliorations := "Cd."
    source := "mock"
    parent_id := none
    distance_from_parent := none
    similarity_to_parent := none
    expected_valid := some true
    violations_injected := none
    metadata := none }

/-- Claim C10, counterexample: the empty string is a violation type outside
the four-entry catalog, yet passing it to `derive_contribution` injects
nothing at all (Python's `if inject_violation_type:` is falsy on `""`):
`violations_injected` stays `None` — not `["unknown_violation"]` — and
`expected_valid` is inherited, not forced to `false`. -/
theorem C10_counterexample :
    VIOLATION_PATTERNS.lookup "" = none
    ∧ (derive_contribution (fun s _ => s) (fun s _ => s) 0 (fun _ => "h")
        parentC10 4 (some "") (1/2)).violations_injected = none
    ∧ (derive_contribution (fun s _ => s) (fun s _ => s) 0 (fun _ => "h")
        parentC10 4 (some "") (1/2)).expected_valid = some true := by
  refine ⟨by decide, by decide, by decide⟩

/-- Claim C10 (amended): for every parent contribution and every NON-EMPTY
violation type outside the catalog, the derived contribution's texts are
exactly the distance-mutated texts (no violation phrase is inserted), yet
`violations_injected = ["unknown_violation"]` and `expected_valid = false` —
an unrecognized tag yields an item labeled invalid although no violation is
present in its text. -/
theorem C10_unknown_violation_label (ad1 ad2 : String → Nat → String)
    (pick : Nat) (md5 : String → String) (parent : MockContribution)
    (td : Nat) (v : String) (intensity : Rat) (hv : v ≠ "")
    (hcat : VIOLATION_PATTERNS.lookup v = none) :
    (derive_contribution ad1 ad2 pick md5 parent td (some v) intensity).constat_factuel
        = ad1 parent.constat_factuel (td / 2)
    ∧ (derive_contribution ad1 ad2 pick md5 parent td (some v) intensity).idees_ameliorations
        = ad2 parent.idees_ameliorations (td / 2)
    ∧ (derive_contribution ad1 ad2 pick md5 parent td (some v) intensity).violations_injected
        = some ["unknown_violation"]
    ∧ (derive_contribution ad1 ad2 pick md5 parent td (some v) intensity).expected_valid
        = some false := by
  unfold derive_contribution
  by_cases hmi : ad2 parent.idees_ameliorations (td / 2) = ""
  · simp [hv, hmi, inject_violation_unknown _ _ _ _ hcat]
  · simp [hv, hmi, inject_violation_unknown _ _ _ _ hcat]

/-- Witness for `C10_unknown_violation_label` at the concrete tag
`"bogus"`. -/
theorem C10_witness :
    (derive_contribution (fun s _ => s) (fun s _ => s) 3 (fun _ => "h")
        parentC10 4 (some "bogus") (1/2)).constat_factuel
        = (fun (s : String) (_ : Nat) => s) parentC10.constat_factuel (4 / 2)
    ∧ (derive_contribution (fun s _ => s) (fun s _ => s) 3 (fun _ => "h")
        parentC10 4 (some "bogus") (1/2)).idees_ameliorations
        = (fun (s : String) (_ : Nat) => s) parentC10.idees_ameliorations (4 / 2)
    ∧ (derive_contribution (fun s _ => s) (fun s _ => s) 3 (fun _ => "h")
        parentC10 4 (some "bogus") (1/2)).violations_injected
        = some ["unknown_violation"]
    ∧ (derive_contribution (fun s _ => s) (fun s _ => s) 3 (fun _ => "h")
        parentC10 4 (some "bogus") (1/2)).expected_valid
        = some false :=
  C10_unknown_violation_label (fun s _ => s) (fun s _ => s) 3 (fun _ => "h")
    parentC10 4 "bogus" (1/2) (by decide) (by decide)

end Ocapistaine
